import Mathlib

/-!
Shallow embedding of the inventory change-detection and notification-dispatch
pipeline of the rapid-response e-commerce monitor, together with proofs about
the embedded operations.

Timestamps (ISO-8601 strings in the source) are modelled as epoch
milliseconds (Nat); the JavaScript conversion new Date(t).getTime() is then
the identity, and timestamp subtraction is integer subtraction.
-/

/-- Availability state for a single location (online or store). -/
structure AvailabilityState where
  available : Bool
  quantity : Option Nat
  lastKnownAvailable : Option Nat
deriving DecidableEq

/-- Store-specific availability information. -/
structure StoreAvailability where
  storeId : String
  available : Bool
  quantity : Option Nat
  lastKnownAvailable : Option Nat
deriving DecidableEq

/-- Complete inventory status for a product. -/
structure InventoryStatus where
  online : AvailabilityState
  stores : List StoreAvailability
deriving DecidableEq

/-- Physical store location configured on a monitored product. -/
structure StoreLocation where
  storeId : String
  storeName : String
  address : Option String
  zipCode : String
deriving DecidableEq

/-- A product being monitored for inventory availability. -/
structure MonitoredProduct where
  id : String
  retailer : String
  sku : String
  name : String
  isActive : Bool
  priority : String
  storeLocations : Option (List StoreLocation)
  currentStatus : InventoryStatus
  lastCheckedAt : Nat
  lastStatusChangeAt : Option Nat
  imageUrl : Option String
  productUrl : String
  addToCartUrl : String
  createdAt : Nat
  updatedAt : Nat
deriving DecidableEq

/-- History event type: the source uses the string literals in_stock and
out_of_stock. -/
inductive HistoryEventType where
  | in_stock
  | out_of_stock
deriving DecidableEq

/-- Inventory history entry appended on a detected transition. -/
structure InventoryHistoryEntry where
  id : String
  productId : String
  eventType : HistoryEventType
  timestamp : Nat
  retailer : String
  sku : String
  online : Bool
  stores : List StoreAvailability
  durationInStockMs : Option Int
  ttl : Nat
deriving DecidableEq

/-- Change event type: inventory.available or inventory.unavailable. -/
inductive ChangeEventType where
  | inventoryAvailable
  | inventoryUnavailable
deriving DecidableEq

/-- Product summary embedded in a change event. -/
structure EventProduct where
  id : String
  sku : String
  name : String
  retailer : String
  productUrl : String
  addToCartUrl : String
  imageUrl : Option String
deriving DecidableEq

/-- Per-store availability snapshot embedded in a change event. -/
structure EventStoreAvailability where
  storeId : String
  storeName : String
  available : Bool
deriving DecidableEq

/-- Availability snapshot embedded in a change event. -/
structure EventAvailability where
  online : Bool
  stores : List EventStoreAvailability
deriving DecidableEq

/-- Event metadata. -/
structure EventMetadata where
  correlationId : String
  source : String
deriving DecidableEq

/-- Inventory change event published to the event channel. -/
structure InventoryChangeEvent where
  eventId : String
  eventType : ChangeEventType
  timestamp : Nat
  product : EventProduct
  availability : EventAvailability
  metadata : EventMetadata
deriving DecidableEq

/-- Delivery channel for a notification. -/
inductive NotificationChannel where
  | sms
  | push
deriving DecidableEq

/-- Notification delivery request queued for the dispatcher. -/
structure NotificationRequest where
  requestId : String
  timestamp : Nat
  triggerEvent : InventoryChangeEvent
  channels : List NotificationChannel
  attemptCount : Nat
  maxAttempts : Nat
  correlationId : String
deriving DecidableEq

/-- Per-channel notification delivery result. -/
structure NotificationResult where
  requestId : String
  success : Bool
  channel : NotificationChannel
  error : Option String
  timestamp : Nat
deriving DecidableEq

/-- Result of a provider inventory check. -/
structure InventoryCheckResult where
  status : InventoryStatus
  productUrl : String
  addToCartUrl : String
  imageUrl : Option String
  productName : Option String
deriving DecidableEq

/-- isAvailable from the inventory monitor worker: a product is available
when it is available online or at any monitored store. -/
def isAvailable (status : InventoryStatus) : Bool :=
  status.online.available || status.stores.any (fun s => s.available)

/-- CosmosDbClient.updateProduct stamps updatedAt and replaces the whole
product document in a single call. -/
def cosmosUpdateProduct (product : MonitoredProduct) (now : Nat) : MonitoredProduct :=
  { product with updatedAt := now }

/-- Observable effects of one product check: the product records written,
history entries appended, change events published and notification requests
queued on that check. -/
structure CheckOutcome where
  productWrites : List MonitoredProduct
  historyWrites : List InventoryHistoryEntry
  publishedEvents : List InventoryChangeEvent
  queuedNotifications : List NotificationRequest
deriving DecidableEq

/-- checkProductInventory from the inventory monitor worker, modelling the
body after the provider check succeeded. Inputs that the source obtains
from its environment are parameters: the provider result, the most recent
prior history entry returned by getLatestHistoryEntry, the current time,
and the freshly generated UUIDs. An undefined or empty image URL is falsy
in the source, so the stored image is refreshed only when the check
supplies a nonempty one. -/
def checkProductInventory (product : MonitoredProduct) (result : InventoryCheckResult)
    (previousEntry : Option InventoryHistoryEntry) (now : Nat)
    (historyId eventId requestId correlationId : String) : CheckOutcome :=
  let wasAvailable := isAvailable product.currentStatus
  let nowAvailable := isAvailable result.status
  let statusChanged := wasAvailable != nowAvailable
  let updatedProduct : MonitoredProduct :=
    { product with
      currentStatus := result.status
      lastCheckedAt := now
      lastStatusChangeAt := if statusChanged then some now else product.lastStatusChangeAt
      productUrl := result.productUrl
      addToCartUrl := result.addToCartUrl
      imageUrl := if !(result.imageUrl.getD "").isEmpty then result.imageUrl
        else product.imageUrl }
  if statusChanged then
    let historyEntry : InventoryHistoryEntry :=
      { id := historyId
        productId := product.id
        eventType := if nowAvailable then .in_stock else .out_of_stock
        timestamp := now
        retailer := product.retailer
        sku := product.sku
        online := result.status.online.available
        stores := result.status.stores
        durationInStockMs :=
          match previousEntry with
          | some prev =>
            if prev.eventType = .in_stock && !nowAvailable then
              some ((now : Int) - (prev.timestamp : Int))
            else none
          | none => none
        ttl := 90 * 24 * 60 * 60 }
    let event : InventoryChangeEvent :=
      { eventId := eventId
        eventType := if nowAvailable then .inventoryAvailable else .inventoryUnavailable
        timestamp := now
        product :=
          { id := updatedProduct.id
            sku := updatedProduct.sku
            name := updatedProduct.name
            retailer := updatedProduct.retailer
            productUrl := updatedProduct.productUrl
            addToCartUrl := updatedProduct.addToCartUrl
            imageUrl := updatedProduct.imageUrl }
        availability :=
          { online := result.status.online.available
            stores := result.status.stores.map (fun s =>
              { storeId := s.storeId
                storeName :=
                  (((product.storeLocations.getD []).find?
                      (fun loc => loc.storeId == s.storeId)).map
                    (fun loc => loc.storeName)).getD s.storeId
                available := s.available }) }
        metadata := { correlationId := correlationId, source := "inventory-monitor" } }
    let queued : List NotificationRequest :=
      if nowAvailable then
        [{ requestId := requestId
           timestamp := now
           triggerEvent := event
           channels := [.sms]
           attemptCount := 0
           maxAttempts := 3
           correlationId := correlationId }]
      else []
    { productWrites := [cosmosUpdateProduct updatedProduct now]
      historyWrites := [historyEntry]
      publishedEvents := [event]
      queuedNotifications := queued }
  else
    { productWrites := [cosmosUpdateProduct updatedProduct now]
      historyWrites := []
      publishedEvents := []
      queuedNotifications := [] }

/-- Concrete monitored product used by the witnesses, with the given online
availability verdict. -/
def sampleProduct (avail : Bool) : MonitoredProduct :=
  { id := "p1", retailer := "bestbuy", sku := "6428324", name := "PS5",
    isActive := true, priority := "high", storeLocations := none,
    currentStatus := ⟨⟨avail, none, none⟩, []⟩, lastCheckedAt := 0,
    lastStatusChangeAt := none, imageUrl := none,
    productUrl := "https://www.bestbuy.com/site/6428324.p",
    addToCartUrl := "https://api.bestbuy.com/click/-/6428324/cart",
    createdAt := 0, updatedAt := 0 }

/-- Concrete provider check result used by the witnesses, with the given
online availability verdict. -/
def sampleResult (avail : Bool) : InventoryCheckResult :=
  { status := ⟨⟨avail, none, none⟩, []⟩,
    productUrl := "https://www.bestbuy.com/site/6428324.p",
    addToCartUrl := "https://api.bestbuy.com/click/-/6428324/cart",
    imageUrl := none, productName := none }

/-- Concrete prior in_stock history entry used by the C2 witness. -/
def sampleHistoryEntry : InventoryHistoryEntry :=
  { id := "h0", productId := "p1", eventType := .in_stock, timestamp := 400,
    retailer := "bestbuy", sku := "6428324", online := true, stores := [],
    durationInStockMs := none, ttl := 7776000 }

/-- A settled check outcome is fulfilled (ok) or rejected (error); this maps
the Except encoding to the fulfilled flag used by the tick summary. -/
def isOkB {ε α : Type} : Except ε α → Bool
  | .ok _ => true
  | .error _ => false

/-- Tick summary reported by the inventory monitor: the per-product settled
results and the counts of succeeded and failed checks. -/
structure TickSummary (ε α : Type) where
  results : List (Except ε α)
  succeeded : Nat
  failed : Nat

/-- inventoryMonitor, one timer tick: dispatch an independent check per
active product; Promise.allSettled waits for every check to settle, so one
rejection never aborts the others; then count fulfilled and rejected
results. A tick with zero products returns early, observably the empty
summary. The per-product check, which closes over the provider factory and
the shared clients, is the parameter check. -/
def runTick {ε α : Type} (products : List MonitoredProduct)
    (check : MonitoredProduct → Except ε α) : TickSummary ε α :=
  let results := products.map check
  { results := results
    succeeded := results.countP isOkB
    failed := results.countP (fun r => !(isOkB r)) }

/-- Web Push subscription details. -/
structure PushSubscription where
  endpoint : String
  p256dh : String
  auth : String
deriving DecidableEq

/-- User notification preferences: SMS and push channel configuration. -/
structure NotificationPreferences where
  smsEnabled : Bool
  smsPhoneNumber : Option String
  pushEnabled : Bool
  pushSubscriptions : List PushSubscription
deriving DecidableEq

/-- User preferences document stored for the single user. -/
structure UserPreferences where
  id : String
  notifications : NotificationPreferences
  defaultPollIntervalSeconds : Nat
  highPriorityPollIntervalSeconds : Nat
  bestBuyApiKeyReference : Option String
  createdAt : Nat
  updatedAt : Nat
deriving DecidableEq

/-- Environmental outcome of the one external SMS send inside
sendSmsNotification: the provider result reports successful with a message
id, reports unsuccessful with an error message, or the attempt throws. -/
inductive SmsSendOutcome where
  | delivered (messageId : String)
  | rejected (errorMessage : String)
  | threw (err : String)
deriving DecidableEq

/-- sendSmsNotification from the notification sender worker: formats and
sends one SMS and converts every outcome, including a thrown error, into a
single NotificationResult. -/
def sendSmsNotification (message : NotificationRequest) (outcome : SmsSendOutcome)
    (ts : Nat) : NotificationResult :=
  match outcome with
  | .delivered _ =>
    { requestId := message.requestId, success := true, channel := .sms,
      error := none, timestamp := ts }
  | .rejected errorMessage =>
    { requestId := message.requestId, success := false, channel := .sms,
      error := some ("SMS delivery failed: " ++ errorMessage), timestamp := ts }
  | .threw err =>
    { requestId := message.requestId, success := false, channel := .sms,
      error := some err, timestamp := ts }

/-- sendPushNotifications from the notification sender worker: the push
transport is a stub that records one success result per subscription. -/
def sendPushNotifications (message : NotificationRequest)
    (subscriptions : List PushSubscription) (ts : Nat) : List NotificationResult :=
  subscriptions.map (fun _ =>
    { requestId := message.requestId, success := true, channel := .push,
      error := none, timestamp := ts })

/-- One iteration of the channel loop in notificationSender: a channel that
is enabled and has a target is attempted (an undefined or empty phone number
is falsy in the source); otherwise it is skipped with no result. -/
def attemptChannel (message : NotificationRequest) (prefs : NotificationPreferences)
    (smsOutcome : SmsSendOutcome) (ts : Nat) :
    NotificationChannel → List NotificationResult
  | .sms =>
    if prefs.smsEnabled && !(prefs.smsPhoneNumber.getD "").isEmpty then
      [sendSmsNotification message smsOutcome ts]
    else []
  | .push =>
    if prefs.pushEnabled && !prefs.pushSubscriptions.isEmpty then
      sendPushNotifications message prefs.pushSubscriptions ts
    else []

/-- Signal the dispatcher returns to the transport: completing normally
settles the message; throwing triggers redelivery. -/
inductive DispatchSignal where
  | success
  | failure
deriving DecidableEq

/-- notificationSender from the notification sender worker: missing
preferences are skipped silently; each requested channel is attempted or
skipped; if at least one result was collected and none succeeded, the
dispatcher throws (failure signal, redelivery); otherwise it returns
normally. -/
def notificationSender (message : NotificationRequest)
    (preferences : Option UserPreferences) (smsOutcome : SmsSendOutcome)
    (ts : Nat) : DispatchSignal × List NotificationResult :=
  match preferences with
  | none => (.success, [])
  | some prefs =>
    let results := message.channels.flatMap
      (attemptChannel message prefs.notifications smsOutcome ts)
    let successful := results.countP (fun r => r.success)
    if results.length > 0 && successful == 0 then (.failure, results)
    else (.success, results)

/-- The SMS channel is attempted exactly when it is requested, enabled and
has a nonempty phone number configured. -/
def smsAttempted (message : NotificationRequest)
    (preferences : Option UserPreferences) : Bool :=
  match preferences with
  | none => false
  | some prefs =>
    message.channels.contains .sms && prefs.notifications.smsEnabled &&
      !(prefs.notifications.smsPhoneNumber.getD "").isEmpty

/-- The push channel is attempted exactly when it is requested, enabled and
has at least one subscription. -/
def pushAttempted (message : NotificationRequest)
    (preferences : Option UserPreferences) : Bool :=
  match preferences with
  | none => false
  | some prefs =>
    message.channels.contains .push && prefs.notifications.pushEnabled &&
      !prefs.notifications.pushSubscriptions.isEmpty

/-- Concrete change event used by the dispatcher witness. -/
def sampleEvent : InventoryChangeEvent :=
  { eventId := "e1", eventType := .inventoryAvailable, timestamp := 1000,
    product := { id := "p1", sku := "6428324", name := "PS5", retailer := "bestbuy",
                 productUrl := "https://www.bestbuy.com/site/6428324.p",
                 addToCartUrl := "https://api.bestbuy.com/click/-/6428324/cart",
                 imageUrl := none },
    availability := { online := true, stores := [] },
    metadata := { correlationId := "c1", source := "inventory-monitor" } }

/-- Concrete notification request used by the dispatcher witness. -/
def sampleRequest : NotificationRequest :=
  { requestId := "r1", timestamp := 1000, triggerEvent := sampleEvent,
    channels := [.sms], attemptCount := 0, maxAttempts := 3, correlationId := "c1" }

/-- Concrete preferences with SMS enabled and push disabled, used by the
dispatcher witness. -/
def samplePrefs : UserPreferences :=
  { id := "default",
    notifications := { smsEnabled := true, smsPhoneNumber := some "+15551234567",
                       pushEnabled := false, pushSubscriptions := [] },
    defaultPollIntervalSeconds := 10, highPriorityPollIntervalSeconds := 5,
    bestBuyApiKeyReference := none, createdAt := 0, updatedAt := 0 }

/-- Environment variables read by the SMS notification service; a variable
is either unset or holds a string, and an empty string is falsy in the
source. -/
structure SmsEnv where
  acsEndpoint : Option String
  acsSmsFromNumber : Option String
  acsConnectionString : Option String
deriving DecidableEq

/-- How the underlying ACS SmsClient was constructed. -/
inductive SmsClientInit where
  | fromConnectionString (connectionString : String)
  | fromEndpoint (endpoint : String)
deriving DecidableEq

/-- SmsNotificationService state after construction. -/
structure SmsNotificationService where
  fromNumber : String
  client : SmsClientInit
deriving DecidableEq

/-- SmsNotificationService constructor: throws when ACS_ENDPOINT is unset or
empty; otherwise stores the from number, defaulting a missing
ACS_SMS_FROM_NUMBER to the empty string, and builds the client from the
connection string when one is set. -/
def mkSmsNotificationService (env : SmsEnv) : Except String SmsNotificationService :=
  let endpoint := env.acsEndpoint.getD ""
  if endpoint.isEmpty then
    .error "ACS_ENDPOINT environment variable is required"
  else
    .ok { fromNumber := env.acsSmsFromNumber.getD ""
          client :=
            if !(env.acsConnectionString.getD "").isEmpty then
              .fromConnectionString (env.acsConnectionString.getD "")
            else .fromEndpoint endpoint }

/-- The external send call issued by sendSms, with the sender identity, the
recipient and the message content it was given. -/
structure SmsSendCall where
  fromNumber : String
  toNumber : String
  message : String
deriving DecidableEq

/-- sendSms: unconditionally issues the external client send call with the
stored from number; the returned value describes that call. -/
def sendSms (service : SmsNotificationService) (toNumber message : String) :
    SmsSendCall :=
  { fromNumber := service.fromNumber, toNumber := toNumber, message := message }

/-- isConfigured: both a from number and the ACS endpoint must be truthy. -/
def isConfigured (service : SmsNotificationService) (env : SmsEnv) : Bool :=
  !service.fromNumber.isEmpty && !(env.acsEndpoint.getD "").isEmpty

/-- UTF-16 code units of one character, as JavaScript strings are indexed
and measured (so the siren emoji contributes two units). -/
def utf16Units (c : Char) : List Nat :=
  let v := c.toNat
  if v < 65536 then [v]
  else [55296 + (v - 65536) / 1024, 56320 + (v - 65536) % 1024]

/-- A JavaScript string as its list of UTF-16 code units. -/
def jsStr (s : String) : List Nat :=
  s.data.flatMap utf16Units

/-- JavaScript String.substring(0, e): a negative end index is clamped to
zero and an end index past the length is clamped to the length. -/
def jsSubstringTo (s : List Nat) (e : Int) : List Nat :=
  s.take e.toNat

/-- The location text built by formatAlertMessage from the optional store
location: an undefined or empty location is falsy in the source and yields
the fixed online text. -/
def locationTextOf (location : Option (List Nat)) : List Nat :=
  if !(location.getD []).isEmpty then jsStr " at " ++ location.getD []
  else jsStr " online"

/-- SmsNotificationService.formatAlertMessage over UTF-16 code-unit lists:
banner plus location, the product name (truncated with a trailing ellipsis
when the computed budget is exceeded), and the add-to-cart URL on the final
line. The retailer parameter is accepted and unused, as in the source. -/
def formatAlertMessage (productName retailer addToCartUrl : List Nat)
    (location : Option (List Nat)) : List Nat :=
  let locationText := locationTextOf location
  let baseMessage := jsStr "🚨 IN STOCK" ++ locationText ++ jsStr "!" ++
    jsStr "\n" ++ productName ++ jsStr "\n"
  let urlText := jsStr "\n" ++ addToCartUrl
  let maxProductLength : Int :=
    160 - (baseMessage.length : Int) - (urlText.length : Int) +
      (productName.length : Int)
  let truncatedName :=
    if (productName.length : Int) > maxProductLength then
      jsSubstringTo productName (maxProductLength - 3) ++ jsStr "..."
    else productName
  jsStr "🚨 IN STOCK" ++ locationText ++ jsStr "!" ++ jsStr "\n" ++
    truncatedName ++ jsStr "\n" ++ addToCartUrl

/-- Rate limit configuration carried by a provider config. -/
structure RateLimitConfig where
  requestsPerSecond : Nat
  requestsPerDay : Option Nat
deriving DecidableEq

/-- Configuration handed to a provider by the factory. -/
structure InventoryProviderConfig where
  apiKey : String
  rateLimit : Option RateLimitConfig
deriving DecidableEq

/-- BestBuyInventoryProvider state after construction: the api key and the
stored rate limit (defaulting to 5 requests per second). -/
structure BestBuyInventoryProvider where
  apiKey : String
  rateLimit : RateLimitConfig
deriving DecidableEq

/-- BestBuyInventoryProvider constructor. -/
def mkBestBuyProvider (config : InventoryProviderConfig) : BestBuyInventoryProvider :=
  { apiKey := config.apiKey
    rateLimit := config.rateLimit.getD { requestsPerSecond := 5, requestsPerDay := none } }

/-- Product fields requested from the Best Buy products endpoint (salePrice,
a floating point number unused by the embedded operations, is omitted). -/
structure BestBuyProductData where
  sku : Nat
  name : String
  url : String
  image : String
  addToCartUrl : String
  onlineAvailability : Bool
  inStoreAvailability : Bool
deriving DecidableEq

/-- Store availability entry from the Best Buy stores endpoint (address
fields and friendsAndFamilyPickup are unused by the embedded operations). -/
structure BestBuyStoreEntry where
  storeId : String
  storeName : String
  inStorePickup : Bool
deriving DecidableEq

/-- HTTP outcome of one upstream fetch. -/
inductive HttpOutcome (α : Type) where
  | success (body : α)
  | notFound
  | failure (status : Nat)
deriving DecidableEq

/-- Upstream request issued by the provider, with the query identity it
carries. -/
inductive UpstreamRequest where
  | productDetails (sku : String) (apiKey : String)
  | storeAvailability (sku : String) (storeIds : List String) (apiKey : String)
deriving DecidableEq

/-- Failures the provider surfaces to the caller. The source throws plain
errors: a missing product and an upstream HTTP error; no rate-limit variant
exists anywhere in the adapter. -/
inductive ProviderFailure where
  | productNotFound (sku : String)
  | apiError (status : Nat)
deriving DecidableEq

/-- Upstream responses the environment returns for the two fetches of one
checkInventory call. The products response carries the reported total and
the products array; the stores response body is optional, as the source
defaults a missing stores field to the empty array. -/
structure BestBuyEnv where
  productResponse : HttpOutcome (Nat × List BestBuyProductData)
  storeResponse : HttpOutcome (Option (List BestBuyStoreEntry))
deriving DecidableEq

/-- getAddToCartUrl from the Best Buy provider. -/
def getAddToCartUrl (sku : String) : String :=
  "https://api.bestbuy.com/click/-/" ++ sku ++ "/cart"

/-- getProductUrl from the Best Buy provider. -/
def getProductUrl (sku : String) : String :=
  "https://www.bestbuy.com/site/" ++ sku ++ ".p"

/-- BestBuyInventoryProvider.checkInventory: fetch product details (404 and
an empty result map to null, so the caller sees ProductNotFound; another
non-ok status throws), then, when store locations were supplied, fetch store
availability. The second component is the trace of upstream requests the
call issued; every call fires its requests unconditionally, with no
throttling state and no rate-limit branch. -/
def checkInventory (p : BestBuyInventoryProvider) (sku : String)
    (storeLocations : Option (List StoreLocation)) (env : BestBuyEnv) (now : Nat) :
    Except ProviderFailure InventoryCheckResult × List UpstreamRequest :=
  let req1 : UpstreamRequest := .productDetails sku p.apiKey
  match env.productResponse with
  | .failure status => (.error (.apiError status), [req1])
  | .notFound => (.error (.productNotFound sku), [req1])
  | .success (total, products) =>
    match products with
    | [] => (.error (.productNotFound sku), [req1])
    | pd :: _ =>
      if total == 0 then (.error (.productNotFound sku), [req1])
      else
        let baseStatus : InventoryStatus :=
          { online := { available := pd.onlineAvailability
                        quantity := none
                        lastKnownAvailable :=
                          if pd.onlineAvailability then some now else none }
            stores := [] }
        let mkResult : InventoryStatus → InventoryCheckResult := fun status =>
          { status := status
            productUrl := getProductUrl sku
            addToCartUrl := getAddToCartUrl sku
            imageUrl := some pd.image
            productName := some pd.name }
        match storeLocations with
        | none => (.ok (mkResult baseStatus), [req1])
        | some locs =>
          if locs.isEmpty then (.ok (mkResult baseStatus), [req1])
          else
            let req2 : UpstreamRequest :=
              .storeAvailability sku (locs.map (fun loc => loc.storeId)) p.apiKey
            match env.storeResponse with
            | .failure status => (.error (.apiError status), [req1, req2])
            | .notFound => (.error (.apiError 404), [req1, req2])
            | .success storesOpt =>
              let sa := storesOpt.getD []
              let status :=
                { baseStatus with
                  stores := sa.map (fun s =>
                    { storeId := s.storeId
                      available := s.inStorePickup
                      quantity := none
                      lastKnownAvailable :=
                        if s.inStorePickup then some now else none }) }
              (.ok (mkResult status), [req1, req2])

/-- Concrete upstream environment for the C8 theorems: the product exists
and is available online. -/
def sampleBestBuyEnv : BestBuyEnv :=
  { productResponse := .success (1,
      [{ sku := 6428324, name := "PS5", url := "https://www.bestbuy.com/site/6428324.p",
         image := "https://img.bbystatic.com/6428324.jpg",
         addToCartUrl := "https://api.bestbuy.com/click/-/6428324/cart",
         onlineAvailability := true, inStoreAvailability := false }])
    storeResponse := .success none }

/-- Claim C1: on every single product check within one tick in which the
availability verdict changes, exactly one change event is published, a
notification request is queued exactly when the new verdict is available,
and a transition to unavailable publishes the event but queues nothing. -/
theorem c1_transition_event_and_notification (product : MonitoredProduct)
    (result : InventoryCheckResult) (previousEntry : Option InventoryHistoryEntry)
    (now : Nat) (historyId eventId requestId correlationId : String)
    (h : isAvailable product.currentStatus ≠ isAvailable result.status) :
    ((checkProductInventory product result previousEntry now historyId eventId requestId
        correlationId).publishedEvents.length = 1) ∧
    ((checkProductInventory product result previousEntry now historyId eventId requestId
        correlationId).queuedNotifications.length =
      if isAvailable result.status then 1 else 0) := by
  cases ha : isAvailable product.currentStatus <;>
    cases hb : isAvailable result.status <;>
      simp [ha, hb] at h ⊢ <;>
        simp [checkProductInventory, ha, hb]

/-- Witness for c1_transition_event_and_notification at concrete inputs, in
both transition directions. -/
theorem c1_witness :
    (isAvailable (sampleProduct false).currentStatus ≠
        isAvailable (sampleResult true).status ∧
      ((checkProductInventory (sampleProduct false) (sampleResult true)
          none 1000 "h1" "e1" "r1" "c1").publishedEvents.length = 1) ∧
      ((checkProductInventory (sampleProduct false) (sampleResult true)
          none 1000 "h1" "e1" "r1" "c1").queuedNotifications.length =
        if isAvailable (sampleResult true).status then 1 else 0)) ∧
    (isAvailable (sampleProduct true).currentStatus ≠
        isAvailable (sampleResult false).status ∧
      ((checkProductInventory (sampleProduct true) (sampleResult false)
          none 1000 "h1" "e1" "r1" "c1").queuedNotifications.length =
        if isAvailable (sampleResult false).status then 1 else 0)) := by
  refine ⟨⟨by decide, ?_, ?_⟩, ⟨by decide, ?_⟩⟩
  · exact (c1_transition_event_and_notification _ _ none 1000 "h1" "e1" "r1" "c1"
      (by decide)).1
  · exact (c1_transition_event_and_notification _ _ none 1000 "h1" "e1" "r1" "c1"
      (by decide)).2
  · exact (c1_transition_event_and_notification _ _ none 1000 "h1" "e1" "r1" "c1"
      (by decide)).2

/-- Claim C2: on a detected transition, the appended history entry carries
durationInStockMs exactly when the new entry is out_of_stock and the most
recent prior entry (as returned by getLatestHistoryEntry) is in_stock, and
then it equals the millisecond difference of the two timestamps; on a
transition to in_stock, or with no prior entry, it is absent. -/
theorem c2_duration_invariant (product : MonitoredProduct)
    (result : InventoryCheckResult) (previousEntry : Option InventoryHistoryEntry)
    (now : Nat) (historyId eventId requestId correlationId : String)
    (h : isAvailable product.currentStatus ≠ isAvailable result.status) :
    (checkProductInventory product result previousEntry now historyId eventId
        requestId correlationId).historyWrites.length = 1 ∧
    ∀ e ∈ (checkProductInventory product result previousEntry now historyId eventId
        requestId correlationId).historyWrites,
      e.timestamp = now ∧
      (e.durationInStockMs.isSome = true ↔
        (e.eventType = .out_of_stock ∧
          ∃ prev, previousEntry = some prev ∧ prev.eventType = .in_stock)) ∧
      (∀ prev, previousEntry = some prev → prev.eventType = .in_stock →
        e.eventType = .out_of_stock →
        e.durationInStockMs = some ((now : Int) - (prev.timestamp : Int))) ∧
      (previousEntry = none → e.durationInStockMs = none) ∧
      (e.eventType = .in_stock → e.durationInStockMs = none) := by
  cases ha : isAvailable product.currentStatus <;>
    cases hb : isAvailable result.status <;>
      simp [ha, hb] at h
  all_goals
    refine ⟨by simp [checkProductInventory, ha, hb], ?_⟩
  all_goals
    intro e he
    simp only [checkProductInventory, ha, hb] at he
    simp only [bne_self_eq_false, Bool.bne_false, Bool.bne_true, Bool.not_false,
      Bool.not_true, if_true, if_false, reduceIte, List.mem_singleton] at he
    subst he
    refine ⟨rfl, ?_, ?_, ?_, ?_⟩ <;>
      cases previousEntry with
      | none => simp
      | some prev => cases hp : prev.eventType <;> simp [hp]

/-- Witness for c2_duration_invariant: the transition in_stock to
out_of_stock with a concrete prior in_stock entry at time 400. -/
theorem c2_witness :
    isAvailable (sampleProduct true).currentStatus ≠
      isAvailable (sampleResult false).status ∧
    (checkProductInventory (sampleProduct true) (sampleResult false)
        (some sampleHistoryEntry) 1000 "h1" "e1" "r1" "c1").historyWrites.length = 1 ∧
    ∀ e ∈ (checkProductInventory (sampleProduct true) (sampleResult false)
        (some sampleHistoryEntry) 1000 "h1" "e1" "r1" "c1").historyWrites,
      e.timestamp = 1000 ∧
      (e.durationInStockMs.isSome = true ↔
        (e.eventType = .out_of_stock ∧
          ∃ prev, (some sampleHistoryEntry : Option InventoryHistoryEntry) = some prev ∧
            prev.eventType = .in_stock)) ∧
      (∀ prev, (some sampleHistoryEntry : Option InventoryHistoryEntry) = some prev →
        prev.eventType = .in_stock → e.eventType = .out_of_stock →
        e.durationInStockMs = some (((1000 : Nat) : Int) - (prev.timestamp : Int))) ∧
      ((some sampleHistoryEntry : Option InventoryHistoryEntry) = none →
        e.durationInStockMs = none) ∧
      (e.eventType = .in_stock → e.durationInStockMs = none) :=
  ⟨by decide, c2_duration_invariant _ _ _ 1000 "h1" "e1" "r1" "c1" (by decide)⟩

/-- Claim C3: when the freshly observed overall verdict equals the stored
verdict, no history entry is appended, no change event is published, and no
notification request is queued. -/
theorem c3_no_change_no_effects (product : MonitoredProduct)
    (result : InventoryCheckResult) (previousEntry : Option InventoryHistoryEntry)
    (now : Nat) (historyId eventId requestId correlationId : String)
    (h : isAvailable product.currentStatus = isAvailable result.status) :
    (checkProductInventory product result previousEntry now historyId eventId
        requestId correlationId).historyWrites = [] ∧
    (checkProductInventory product result previousEntry now historyId eventId
        requestId correlationId).publishedEvents = [] ∧
    (checkProductInventory product result previousEntry now historyId eventId
        requestId correlationId).queuedNotifications = [] := by
  cases ha : isAvailable product.currentStatus <;>
    cases hb : isAvailable result.status <;>
      simp [ha, hb] at h <;>
        simp [checkProductInventory, ha, hb]

/-- Witness for c3_no_change_no_effects: an unchanged unavailable verdict
produces no history entry, no event and no notification. -/
theorem c3_witness :
    isAvailable (sampleProduct false).currentStatus =
      isAvailable (sampleResult false).status ∧
    (checkProductInventory (sampleProduct false) (sampleResult false)
        none 1000 "h1" "e1" "r1" "c1").historyWrites = [] ∧
    (checkProductInventory (sampleProduct false) (sampleResult false)
        none 1000 "h1" "e1" "r1" "c1").publishedEvents = [] ∧
    (checkProductInventory (sampleProduct false) (sampleResult false)
        none 1000 "h1" "e1" "r1" "c1").queuedNotifications = [] :=
  ⟨by decide, c3_no_change_no_effects _ _ none 1000 "h1" "e1" "r1" "c1" (by decide)⟩

/-- Claim C5: every successful check performs exactly one product-record
write; the written record carries the fresh status, check time and refreshed
links (image only when the check supplied one), sets lastStatusChangeAt to
the poll time exactly when the verdict changed and keeps it otherwise, and
leaves the identity and configuration fields unchanged. -/
theorem c5_single_product_write (product : MonitoredProduct)
    (result : InventoryCheckResult) (previousEntry : Option InventoryHistoryEntry)
    (now : Nat) (historyId eventId requestId correlationId : String) :
    (checkProductInventory product result previousEntry now historyId eventId
        requestId correlationId).productWrites.length = 1 ∧
    ∀ p ∈ (checkProductInventory product result previousEntry now historyId eventId
        requestId correlationId).productWrites,
      p.currentStatus = result.status ∧
      p.lastCheckedAt = now ∧
      p.productUrl = result.productUrl ∧
      p.addToCartUrl = result.addToCartUrl ∧
      p.imageUrl = (if !(result.imageUrl.getD "").isEmpty then result.imageUrl
        else product.imageUrl) ∧
      p.lastStatusChangeAt =
        (if isAvailable product.currentStatus != isAvailable result.status
          then some now else product.lastStatusChangeAt) ∧
      p.id = product.id ∧ p.sku = product.sku ∧ p.retailer = product.retailer ∧
      p.name = product.name ∧ p.isActive = product.isActive ∧
      p.storeLocations = product.storeLocations ∧ p.createdAt = product.createdAt := by
  cases ha : isAvailable product.currentStatus <;>
    cases hb : isAvailable result.status <;>
  · refine ⟨by simp [checkProductInventory, cosmosUpdateProduct, ha, hb], ?_⟩
    intro p hp
    simp only [checkProductInventory, cosmosUpdateProduct, ha, hb] at hp
    simp only [bne_self_eq_false, Bool.bne_false, Bool.bne_true, Bool.not_false,
      Bool.not_true, Bool.false_eq_true, Bool.true_eq_false, if_true, if_false,
      ite_true, ite_false, List.mem_singleton] at hp
    subst hp
    refine ⟨rfl, rfl, rfl, rfl, ?_, ?_, rfl, rfl, rfl, rfl, rfl, rfl, rfl⟩ <;>
      simp [ha, hb]

/-- Claim C10: every notification request queued by the poll worker has
channels exactly the one-element list sms, attemptCount 0 and maxAttempts 3,
and in particular never names the push channel, so the dispatcher never
attempts push for such a request under any preferences. -/
theorem c10_notification_shape (product : MonitoredProduct)
    (result : InventoryCheckResult) (previousEntry : Option InventoryHistoryEntry)
    (now : Nat) (historyId eventId requestId correlationId : String) :
    (((checkProductInventory product result previousEntry now historyId eventId
        requestId correlationId).queuedNotifications.all fun nr =>
      nr.channels == [NotificationChannel.sms] && nr.attemptCount == 0 &&
        nr.maxAttempts == 3 &&
        !(nr.channels.contains NotificationChannel.push)) = true) ∧
    ∀ preferences : Option UserPreferences,
      ((checkProductInventory product result previousEntry now historyId eventId
          requestId correlationId).queuedNotifications.all fun nr =>
        !(pushAttempted nr preferences)) = true := by
  refine ⟨?_, ?_⟩
  · cases ha : isAvailable product.currentStatus <;>
      cases hb : isAvailable result.status <;>
        simp [checkProductInventory, ha, hb]
  · intro preferences
    cases ha : isAvailable product.currentStatus <;>
      cases hb : isAvailable result.status <;>
        cases preferences <;>
          simp [checkProductInventory, ha, hb, pushAttempted]

theorem countP_add_countP_not {α : Type} (p : α → Bool) (l : List α) :
    l.countP p + l.countP (fun a => !(p a)) = l.length := by
  induction l with
  | nil => rfl
  | cons x t ih =>
    cases hx : p x <;> simp [List.countP_cons, hx, ← ih] <;> omega

/-- Claim C9: within a single tick, every product's result is exactly its
own check's outcome, independent of every other product (so one failing
check never prevents another from completing); the summary counts succeeded
plus failed checks, which partition the batch; the failed count is the
number of products whose own check failed; and a tick over zero products is
the empty no-op summary. -/
theorem c9_tick_isolation {ε α : Type} (products : List MonitoredProduct)
    (check : MonitoredProduct → Except ε α) (i : Nat) :
    ((runTick products check).results.length = products.length) ∧
    ((runTick products check).results[i]? = (products[i]?).map check) ∧
    ((runTick products check).succeeded + (runTick products check).failed
        = products.length) ∧
    ((runTick products check).failed =
      (products.filter (fun p => !(isOkB (check p)))).length) ∧
    (runTick ([] : List MonitoredProduct) check = ⟨[], 0, 0⟩) := by
  refine ⟨by simp [runTick], by simp [runTick], ?_, ?_, rfl⟩
  · simpa [runTick] using countP_add_countP_not isOkB (products.map check)
  · simp only [runTick, List.countP_map, ← List.countP_eq_length_filter]
    rfl

theorem attemptChannel_sms_eq_nil (message : NotificationRequest)
    (prefsN : NotificationPreferences) (smsOutcome : SmsSendOutcome) (ts : Nat) :
    attemptChannel message prefsN smsOutcome ts .sms = [] ↔
      (prefsN.smsEnabled && !(prefsN.smsPhoneNumber.getD "").isEmpty) = false := by
  cases h : (prefsN.smsEnabled && !(prefsN.smsPhoneNumber.getD "").isEmpty) <;>
    simp [attemptChannel, h]

theorem attemptChannel_push_eq_nil (message : NotificationRequest)
    (prefsN : NotificationPreferences) (smsOutcome : SmsSendOutcome) (ts : Nat) :
    attemptChannel message prefsN smsOutcome ts .push = [] ↔
      (prefsN.pushEnabled && !prefsN.pushSubscriptions.isEmpty) = false := by
  cases h : (prefsN.pushEnabled && !prefsN.pushSubscriptions.isEmpty) <;>
    simp [attemptChannel, h, sendPushNotifications]
  rcases Bool.and_eq_true .. |>.mp h with ⟨-, h2⟩
  simpa using h2

theorem flatMap_channels_eq_nil (l : List NotificationChannel)
    (f : NotificationChannel → List NotificationResult) :
    l.flatMap f = [] ↔ ((.sms ∈ l → f .sms = []) ∧ (.push ∈ l → f .push = [])) := by
  rw [List.flatMap_eq_nil_iff]
  constructor
  · intro h
    exact ⟨fun hs => h _ hs, fun hp => h _ hp⟩
  · rintro ⟨h1, h2⟩ c hc
    cases c
    · exact h1 hc
    · exact h2 hc

theorem dispatch_results_ne_nil_iff (message : NotificationRequest)
    (prefs : UserPreferences) (smsOutcome : SmsSendOutcome) (ts : Nat) :
    (message.channels.flatMap
        (attemptChannel message prefs.notifications smsOutcome ts) ≠ []) ↔
      (smsAttempted message (some prefs) || pushAttempted message (some prefs)) = true := by
  rw [Ne, flatMap_channels_eq_nil, attemptChannel_sms_eq_nil, attemptChannel_push_eq_nil]
  simp only [smsAttempted, pushAttempted, Bool.or_eq_true, Bool.and_eq_true,
    List.contains, List.elem_iff, Bool.eq_false_iff, Ne]
  tauto

/-- Claim C4: the dispatcher signals failure to the transport (throws,
triggering redelivery) exactly when at least one channel was attempted and
every collected result failed; with at least one success, or with zero
channels attempted (missing preferences, disabled channels or absent
targets), it signals success and the request is not retried. -/
theorem c4_dispatcher_failure_iff (message : NotificationRequest)
    (preferences : Option UserPreferences) (smsOutcome : SmsSendOutcome) (ts : Nat) :
    (notificationSender message preferences smsOutcome ts).1 = .failure ↔
      ((smsAttempted message preferences || pushAttempted message preferences) = true ∧
        ∀ r ∈ (notificationSender message preferences smsOutcome ts).2,
          r.success = false) := by
  cases preferences with
  | none => simp [notificationSender, smsAttempted, pushAttempted]
  | some prefs =>
    simp only [notificationSender]
    cases hcond : (decide ((message.channels.flatMap
        (attemptChannel message prefs.notifications smsOutcome ts)).length > 0) &&
        ((message.channels.flatMap
          (attemptChannel message prefs.notifications smsOutcome ts)).countP
          (fun r => r.success) == 0)) with
    | false =>
      rw [if_neg (by decide : ¬(false = true))]
      constructor
      · intro h
        exact DispatchSignal.noConfusion h
      · rintro ⟨hatt, hall⟩
        exfalso
        have h1 : message.channels.flatMap
            (attemptChannel message prefs.notifications smsOutcome ts) ≠ [] :=
          (dispatch_results_ne_nil_iff message prefs smsOutcome ts).mpr hatt
        have h2 : (message.channels.flatMap
            (attemptChannel message prefs.notifications smsOutcome ts)).countP
            (fun r => r.success) = 0 :=
          List.countP_eq_zero.mpr (fun r hr => by simp [hall r hr])
        have hgt : (message.channels.flatMap
            (attemptChannel message prefs.notifications smsOutcome ts)).length > 0 :=
          List.length_pos.mpr h1
        rw [h2, decide_eq_true hgt] at hcond
        simp at hcond
    | true =>
      rw [if_pos (rfl : (true : Bool) = true)]
      rw [Bool.and_eq_true] at hcond
      obtain ⟨hlen, hcnt⟩ := hcond
      have h1 : message.channels.flatMap
          (attemptChannel message prefs.notifications smsOutcome ts) ≠ [] := by
        have := of_decide_eq_true hlen
        exact List.length_pos.mp this
      have h2 := List.countP_eq_zero.mp (eq_of_beq hcnt)
      constructor
      · intro _
        refine ⟨(dispatch_results_ne_nil_iff message prefs smsOutcome ts).mp h1, ?_⟩
        intro r hr
        simpa using h2 r hr
      · intro _
        rfl

/-- Witness for c4_dispatcher_failure_iff at a concrete request whose only
attempted channel (SMS) fails: the dispatcher signals failure. -/
theorem c4_witness :
    ((notificationSender sampleRequest (some samplePrefs)
        (.rejected "upstream error") 1000).1 = .failure ↔
      ((smsAttempted sampleRequest (some samplePrefs) ||
          pushAttempted sampleRequest (some samplePrefs)) = true ∧
        ∀ r ∈ (notificationSender sampleRequest (some samplePrefs)
            (.rejected "upstream error") 1000).2, r.success = false)) ∧
    (notificationSender sampleRequest (some samplePrefs)
        (.rejected "upstream error") 1000).1 = .failure :=
  ⟨c4_dispatcher_failure_iff sampleRequest (some samplePrefs)
    (.rejected "upstream error") 1000, by decide⟩

/-- Counterexample for claim C7: with the ACS endpoint set but the outbound
from number absent, construction succeeds, isConfigured reports false, and
sendSms still issues the external send call (with an empty sender identity)
instead of failing fast with a configuration error. -/
theorem c7_counterexample :
    mkSmsNotificationService ⟨some "https://acs.example.com", none, none⟩ =
      .ok { fromNumber := "", client := .fromEndpoint "https://acs.example.com" } ∧
    isConfigured { fromNumber := "", client := .fromEndpoint "https://acs.example.com" }
      ⟨some "https://acs.example.com", none, none⟩ = false ∧
    sendSms { fromNumber := "", client := .fromEndpoint "https://acs.example.com" }
      "+15551234567" "IN STOCK" =
      { fromNumber := "", toNumber := "+15551234567", message := "IN STOCK" } :=
  ⟨rfl, rfl, rfl⟩

/-- Claim C7 amended: construction fails fast with the configuration error
exactly when the ACS endpoint is unset or empty, so no send can be
attempted; when the endpoint is present but the from number is absent, the
service constructs with an empty from number, isConfigured reports false,
and sendSms nevertheless issues the external send call. -/
theorem c7_amended_config_behavior (env : SmsEnv) (toNumber message : String) :
    ((env.acsEndpoint.getD "").isEmpty = true →
      mkSmsNotificationService env =
        .error "ACS_ENDPOINT environment variable is required") ∧
    ((env.acsEndpoint.getD "").isEmpty = false →
      (env.acsSmsFromNumber.getD "").isEmpty = true →
      ∃ svc, mkSmsNotificationService env = .ok svc ∧
        svc.fromNumber = env.acsSmsFromNumber.getD "" ∧
        svc.fromNumber.isEmpty = true ∧
        isConfigured svc env = false ∧
        sendSms svc toNumber message =
          { fromNumber := svc.fromNumber, toNumber := toNumber,
            message := message }) := by
  constructor
  · intro h
    simp [mkSmsNotificationService, h]
  · intro h1 h2
    have hmk : mkSmsNotificationService env =
        .ok { fromNumber := env.acsSmsFromNumber.getD ""
              client :=
                if !(env.acsConnectionString.getD "").isEmpty then
                  .fromConnectionString (env.acsConnectionString.getD "")
                else .fromEndpoint (env.acsEndpoint.getD "") } := by
      simp [mkSmsNotificationService, h1]
    refine ⟨_, hmk, rfl, h2, ?_, rfl⟩
    simp [isConfigured, h2]

/-- Witness for c7_amended_config_behavior at two concrete environments:
one with the endpoint missing, one with only the from number missing. -/
theorem c7_witness :
    ((((⟨none, some "+15550000000", none⟩ : SmsEnv).acsEndpoint.getD "").isEmpty
        = true ∧
      mkSmsNotificationService ⟨none, some "+15550000000", none⟩ =
        .error "ACS_ENDPOINT environment variable is required") ∧
    ((((⟨some "https://acs.example.com", none, none⟩ : SmsEnv).acsEndpoint.getD
        "").isEmpty = false) ∧
      ((((⟨some "https://acs.example.com", none, none⟩ :
          SmsEnv).acsSmsFromNumber.getD "").isEmpty = true)) ∧
      ∃ svc, mkSmsNotificationService
          ⟨some "https://acs.example.com", none, none⟩ = .ok svc ∧
        svc.fromNumber = ((⟨some "https://acs.example.com", none, none⟩ :
          SmsEnv).acsSmsFromNumber.getD "") ∧
        svc.fromNumber.isEmpty = true ∧
        isConfigured svc ⟨some "https://acs.example.com", none, none⟩ = false ∧
        sendSms svc "+15551234567" "IN STOCK" =
          { fromNumber := svc.fromNumber, toNumber := "+15551234567",
            message := "IN STOCK" })) :=
  ⟨⟨by decide,
      (c7_amended_config_behavior ⟨none, some "+15550000000", none⟩
        "+15551234567" "IN STOCK").1 (by decide)⟩,
    by decide, by decide,
    (c7_amended_config_behavior ⟨some "https://acs.example.com", none, none⟩
      "+15551234567" "IN STOCK").2 (by decide) (by decide)⟩

set_option maxRecDepth 8192 in
/-- Counterexample for claim C6: with a 150-unit add-to-cart URL the
computed name budget is negative and the substring clamps to the empty
string; the produced message still consists of the banner, the online
location text, a bare ellipsis in place of the name, and the full URL, and
is 174 UTF-16 code units long, exceeding 160. -/
theorem c6_counterexample :
    160 < (formatAlertMessage (jsStr "PlayStation 5 Console") (jsStr "bestbuy")
      (List.replicate 150 97) none).length ∧
    formatAlertMessage (jsStr "PlayStation 5 Console") (jsStr "bestbuy")
        (List.replicate 150 97) none =
      jsStr "🚨 IN STOCK" ++ locationTextOf none ++ jsStr "!" ++ jsStr "\n" ++
        jsStr "..." ++ jsStr "\n" ++ List.replicate 150 97 :=
  ⟨by decide, by decide⟩

/-- Claim C6 amended: the message always consists of the fixed banner and
location text, then either the whole product name or a prefix of it with a
trailing ellipsis, then the full add-to-cart URL on the final line; and
whenever the location text and the URL together leave a name budget of at
least three units (their lengths sum to at most 142), the message is at
most 160 UTF-16 code units. With an overlong URL or location the bound is
exceeded although the layout and the full URL are preserved. -/
theorem c6_amended_bounded (productName retailer addToCartUrl : List Nat)
    (location : Option (List Nat)) :
    (∃ t, formatAlertMessage productName retailer addToCartUrl location =
        jsStr "🚨 IN STOCK" ++ locationTextOf location ++ jsStr "!" ++ jsStr "\n" ++
          t ++ jsStr "\n" ++ addToCartUrl ∧
      (t = productName ∨ ∃ k, t = productName.take k ++ jsStr "...")) ∧
    ((locationTextOf location).length + addToCartUrl.length ≤ 142 →
      (formatAlertMessage productName retailer addToCartUrl location).length ≤ 160) := by
  have hbanner : (jsStr "🚨 IN STOCK").length = 11 := rfl
  have hexcl : (jsStr "!").length = 1 := rfl
  have hnl : (jsStr "\n").length = 1 := rfl
  have hdots : (jsStr "...").length = 3 := rfl
  constructor
  · simp only [formatAlertMessage, jsSubstringTo]
    split
    · exact ⟨_, rfl, Or.inr ⟨_, rfl⟩⟩
    · exact ⟨_, rfl, Or.inl rfl⟩
  · intro h
    simp only [formatAlertMessage, jsSubstringTo]
    split
    · rename_i hc
      simp only [List.length_append, List.length_take, hbanner, hexcl, hnl, hdots]
      simp only [List.length_append, hbanner, hexcl, hnl] at hc
      omega
    · rename_i hc
      simp only [List.length_append, hbanner, hexcl, hnl]
      simp only [not_lt, List.length_append, hbanner, hexcl, hnl] at hc
      omega

set_option maxRecDepth 8192 in
/-- Witness for c6_amended_bounded at a concrete short product: the layout
holds and, the budget hypothesis being satisfied, the message stays within
160 units. -/
theorem c6_witness :
    (∃ t, formatAlertMessage (jsStr "Xbox Series X") (jsStr "bestbuy")
        (jsStr "https://api.bestbuy.com/click/-/6428324/cart") none =
        jsStr "🚨 IN STOCK" ++ locationTextOf none ++ jsStr "!" ++ jsStr "\n" ++
          t ++ jsStr "\n" ++ jsStr "https://api.bestbuy.com/click/-/6428324/cart" ∧
      (t = jsStr "Xbox Series X" ∨
        ∃ k, t = (jsStr "Xbox Series X").take k ++ jsStr "...")) ∧
    ((locationTextOf none).length +
        (jsStr "https://api.bestbuy.com/click/-/6428324/cart").length ≤ 142) ∧
    (formatAlertMessage (jsStr "Xbox Series X") (jsStr "bestbuy")
        (jsStr "https://api.bestbuy.com/click/-/6428324/cart") none).length ≤ 160 :=
  ⟨(c6_amended_bounded (jsStr "Xbox Series X") (jsStr "bestbuy")
      (jsStr "https://api.bestbuy.com/click/-/6428324/cart") none).1,
    by decide,
    (c6_amended_bounded (jsStr "Xbox Series X") (jsStr "bestbuy")
      (jsStr "https://api.bestbuy.com/click/-/6428324/cart") none).2 (by decide)⟩

theorem checkInventory_issues_request (p : BestBuyInventoryProvider) (sku : String)
    (storeLocations : Option (List StoreLocation)) (env : BestBuyEnv) (now : Nat) :
    (checkInventory p sku storeLocations env now).2 ≠ [] := by
  unfold checkInventory
  rcases env with ⟨pr, sr⟩
  dsimp only
  rcases pr with body | _ | s
  · rcases body with ⟨total, products⟩
    rcases products with _ | ⟨pd, rest⟩
    · simp
    · dsimp only
      split
      · simp
      · rcases storeLocations with _ | locs
        · simp
        · dsimp only
          split
          · simp
          · rcases sr with sbody | _ | s2 <;> simp
  · simp
  · simp

/-- Counterexample for claim C8: with a configured limit of one request per
second, two consecutive same-instant checkInventory calls each fire their
upstream request immediately (two upstream requests, no throttling), both
succeed, and the adapter behaves identically to one configured with a
million requests per second; the failure type of the adapter, taken from
the source, has no RateLimited variant at all. -/
theorem c8_counterexample :
    (checkInventory (mkBestBuyProvider ⟨"key", some ⟨1, none⟩⟩) "6428324" none
        sampleBestBuyEnv 5 =
      checkInventory (mkBestBuyProvider ⟨"key", some ⟨1000000, none⟩⟩) "6428324" none
        sampleBestBuyEnv 5) ∧
    ((checkInventory (mkBestBuyProvider ⟨"key", some ⟨1, none⟩⟩) "6428324" none
        sampleBestBuyEnv 5).2 = [.productDetails "6428324" "key"]) ∧
    (((checkInventory (mkBestBuyProvider ⟨"key", some ⟨1, none⟩⟩) "6428324" none
        sampleBestBuyEnv 5).2 ++
      (checkInventory (mkBestBuyProvider ⟨"key", some ⟨1, none⟩⟩) "6428324" none
        sampleBestBuyEnv 5).2).length = 2) ∧
    ∃ r, (checkInventory (mkBestBuyProvider ⟨"key", some ⟨1, none⟩⟩) "6428324" none
        sampleBestBuyEnv 5).1 = .ok r :=
  ⟨rfl, rfl, rfl, ⟨_, rfl⟩⟩

/-- Claim C8 amended: the adapter stores its configured rate limit but never
consults it; checkInventory results and the upstream request trace are
identical under any two configurations sharing an api key, and every call
issues at least one upstream request unconditionally, so no internal
throttling or RateLimited condition exists in the adapter. -/
theorem c8_amended_rate_limit_unenforced (c1 c2 : InventoryProviderConfig)
    (h : c1.apiKey = c2.apiKey) (sku : String)
    (storeLocations : Option (List StoreLocation)) (env : BestBuyEnv) (now : Nat) :
    (checkInventory (mkBestBuyProvider c1) sku storeLocations env now =
      checkInventory (mkBestBuyProvider c2) sku storeLocations env now) ∧
    (checkInventory (mkBestBuyProvider c1) sku storeLocations env now).2 ≠ [] := by
  obtain ⟨k1, r1⟩ := c1
  obtain ⟨k2, r2⟩ := c2
  have hk : k1 = k2 := h
  subst hk
  exact ⟨rfl, checkInventory_issues_request _ _ _ _ _⟩

/-- Witness for c8_amended_rate_limit_unenforced at two concrete configs
differing only in their limits. -/
theorem c8_witness :
    ((⟨"key", some ⟨1, none⟩⟩ : InventoryProviderConfig).apiKey =
      (⟨"key", some ⟨1000000, none⟩⟩ : InventoryProviderConfig).apiKey) ∧
    ((checkInventory (mkBestBuyProvider ⟨"key", some ⟨1, none⟩⟩) "6428324"
        (some [{ storeId := "s1", storeName := "Store One", address := none,
                 zipCode := "98052" }]) sampleBestBuyEnv 5 =
      checkInventory (mkBestBuyProvider ⟨"key", some ⟨1000000, none⟩⟩) "6428324"
        (some [{ storeId := "s1", storeName := "Store One", address := none,
                 zipCode := "98052" }]) sampleBestBuyEnv 5) ∧
    (checkInventory (mkBestBuyProvider ⟨"key", some ⟨1, none⟩⟩) "6428324"
        (some [{ storeId := "s1", storeName := "Store One", address := none,
                 zipCode := "98052" }]) sampleBestBuyEnv 5).2 ≠ []) :=
  ⟨rfl, c8_amended_rate_limit_unenforced ⟨"key", some ⟨1, none⟩⟩
    ⟨"key", some ⟨1000000, none⟩⟩ rfl "6428324"
    (some [{ storeId := "s1", storeName := "Store One", address := none,
             zipCode := "98052" }]) sampleBestBuyEnv 5⟩

/-- Witness for c5_single_product_write at a concrete transition to
available: the single written record carries the fresh fields and the poll
time in lastStatusChangeAt. -/
theorem c5_witness :
    (checkProductInventory (sampleProduct false) (sampleResult true) none 1000
        "h1" "e1" "r1" "c1").productWrites.length = 1 ∧
    ∀ p ∈ (checkProductInventory (sampleProduct false) (sampleResult true) none 1000
        "h1" "e1" "r1" "c1").productWrites,
      p.currentStatus = (sampleResult true).status ∧
      p.lastCheckedAt = 1000 ∧
      p.productUrl = (sampleResult true).productUrl ∧
      p.addToCartUrl = (sampleResult true).addToCartUrl ∧
      p.imageUrl = (if !((sampleResult true).imageUrl.getD "").isEmpty
          then (sampleResult true).imageUrl
          else (sampleProduct false).imageUrl) ∧
      p.lastStatusChangeAt =
        (if isAvailable (sampleProduct false).currentStatus !=
            isAvailable (sampleResult true).status
          then some 1000 else (sampleProduct false).lastStatusChangeAt) ∧
      p.id = (sampleProduct false).id ∧ p.sku = (sampleProduct false).sku ∧
      p.retailer = (sampleProduct false).retailer ∧
      p.name = (sampleProduct false).name ∧
      p.isActive = (sampleProduct false).isActive ∧
      p.storeLocations = (sampleProduct false).storeLocations ∧
      p.createdAt = (sampleProduct false).createdAt :=
  c5_single_product_write (sampleProduct false) (sampleResult true) none 1000
    "h1" "e1" "r1" "c1"
